import Mathlib

/-!
Shallow embedding of the FitnessStudioAPI booking service
(`src/FitnessStudioAPI/app.py`) and verification of its specification.

Modelling conventions:
* Instants in time are integers (minutes since an arbitrary epoch).
  `add_class` receives the IST wall-clock instant directly (the Python
  calendar construction `datetime(...)` / `IST.localize` is abstracted to
  that instant); `datetime_utc` is the same instant shifted by the fixed
  IST offset of 330 minutes, matching `astimezone(UTC)`.
* JSON request values are modelled by `PyVal` (Python values as delivered
  by `request.get_json()`); response bodies by `Json`.  `isoformat()`
  renderings of datetimes are modelled as the numeric instant (`Json.jint`).
* The SQLite database is a `DB`: a list of class rows and of booking rows
  in insertion order (queries without ORDER BY return rowid order, which
  is insertion order here).  `query.get` / `with_for_update().get` on the
  primary key is `List.find?` on the id; mutating the fetched row is
  replacing the first row with that id.
* Routes are deterministic functions of the current time, the generated
  uuid / timestamp, the database and the request; the `except` branches
  (store faults) are not modelled, and `db.session.rollback()` is what
  justifies returning the unchanged database on every error path.
-/

/-- A Python value as obtained from a parsed JSON body. -/
inductive PyVal where
  | pynone : PyVal
  | pyint (n : Int) : PyVal
  | pystr (s : String) : PyVal
  | pybool (b : Bool) : PyVal
deriving DecidableEq

open PyVal

/-- Python truthiness, as used by `if not data` and `all([...])`. -/
def truthy : PyVal → Bool
  | pynone => false
  | pyint n => n != 0
  | pystr s => s != ""
  | pybool b => b

/-- Decimal digits of a string, or `none` if a non-digit occurs. -/
def digitsToNat : List Char → Option Nat
  | [] => some 0
  | c :: cs =>
    if c.isDigit then
      (digitsToNat cs).map (fun m => (c.toNat - '0'.toNat) * 10 ^ cs.length + m)
    else none

/-- `int(s)` for a string: optional sign followed by at least one digit
(Python's full grammar also strips whitespace and underscores; those inputs
do not occur in any claim). -/
def parsePyInt (s : String) : Option Int :=
  match s.data with
  | [] => none
  | '-' :: rest => if rest = [] then none else (digitsToNat rest).map (fun n => -(n : Int))
  | '+' :: rest => if rest = [] then none else (digitsToNat rest).map (fun n => (n : Int))
  | l => (digitsToNat l).map (fun n => (n : Int))

/-- `int(v)`: `none` models the `(ValueError, TypeError)` branch. -/
def pyToInt : PyVal → Option Int
  | pynone => none
  | pyint n => some n
  | pystr s => parsePyInt s
  | pybool b => some (if b then 1 else 0)

/-- `data.get(key)`: first binding of the key, defaulting to `None`. -/
def pyGet (d : List (String × PyVal)) (k : String) : PyVal :=
  match d.find? (fun kv => kv.1 == k) with
  | some kv => kv.2
  | none => pynone

/-- A JSON response body. -/
inductive Json where
  | jnull : Json
  | jbool (b : Bool) : Json
  | jint (n : Int) : Json
  | jstr (s : String) : Json
  | jarr (xs : List Json) : Json
  | jobj (fields : List (String × Json)) : Json

open Json

/-- `jsonify({'error': msg})`. -/
def errJson (msg : String) : Json :=
  jobj [("error", jstr msg)]

/-- Whether a JSON object body carries the given top-level field. -/
def hasField (j : Json) (k : String) : Bool :=
  match j with
  | jobj fields => fields.any (fun kv => kv.1 == k)
  | _ => false

/-- Render a stored `PyVal` back to JSON (for booking columns echoed in
responses). -/
def pyvalJson : PyVal → Json
  | pynone => jnull
  | pyint n => jint n
  | pystr s => jstr s
  | pybool b => jbool b

/-- A row of the `fitness_classes` table. -/
structure FitnessClass where
  id : Int
  name : String
  datetime_ist : Int
  datetime_utc : Int
  instructor : String
  total_slots : Int
  available_slots : Int
  duration_minutes : Int
deriving DecidableEq

/-- A row of the `bookings` table.  `client_name` / `client_email` are
stored exactly as supplied in the request (the code performs no coercion
or normalisation). -/
structure Booking where
  id : String
  class_id : Int
  client_name : PyVal
  client_email : PyVal
  booking_time : Int
deriving DecidableEq

/-- The persistent state: both tables, in insertion order. -/
structure DB where
  classes : List FitnessClass
  bookings : List Booking
deriving DecidableEq

def emptyDB : DB := ⟨[], []⟩

/-- Fixed IST offset (UTC+5:30) in minutes. -/
def istOffset : Int := 330

/-- `add_class`: reject a duplicate id, otherwise insert the row with
`available_slots = total_slots`.  `istWall` is the IST wall-clock instant
built from the year/month/day/hour/minute arguments. -/
def add_class (db : DB) (class_id : Int) (name : String) (istWall : Int)
    (instructor : String) (total_slots : Int) (duration_minutes : Int) : Bool × DB :=
  match db.classes.find? (fun c => c.id == class_id) with
  | some _ => (false, db)
  | none =>
    (true, { db with classes := db.classes ++
      [{ id := class_id, name := name, datetime_ist := istWall,
         datetime_utc := istWall - istOffset, instructor := instructor,
         total_slots := total_slots, available_slots := total_slots,
         duration_minutes := duration_minutes }] })

/-- One class row as serialised by `GET /classes`. -/
def classJson (c : FitnessClass) : Json :=
  jobj [("id", jint c.id), ("name", jstr c.name),
        ("datetime_ist", jint c.datetime_ist), ("datetime_utc", jint c.datetime_utc),
        ("instructor", jstr c.instructor), ("available_slots", jint c.available_slots),
        ("total_slots", jint c.total_slots), ("duration_minutes", jint c.duration_minutes)]

/-- `GET /classes`.  The handler never reads `request.args`, so the
`include_past` query parameter is accepted but ignored; the query has no
ORDER BY, so rows come back in stored order. -/
def get_classes (now : Int) (db : DB) (include_past : Option String) : Nat × Json :=
  (200, jarr ((db.classes.filter (fun c => now < c.datetime_utc)).map classJson))

/-- Replace the first class row with the given id by its slot-decremented
copy (`target_class.available_slots -= 1` on the row fetched by primary
key). -/
def decrementFirst (cid : Int) : List FitnessClass → List FitnessClass
  | [] => []
  | c :: cs =>
    if c.id == cid then { c with available_slots := c.available_slots - 1 } :: cs
    else c :: decrementFirst cid cs

/-- The body of `book_class` after input validation: fetch the class by
primary key, check start time and capacity, then insert the booking and
decrement the counter in one committed transaction. -/
def book_core (now : Int) (gid : String) (gt : Int) (db : DB) (cid : Int)
    (cname cemail : PyVal) : (Nat × Json) × DB :=
  match db.classes.find? (fun c => c.id == cid) with
  | none => ((404, errJson "Class not found"), db)
  | some c =>
    if c.datetime_utc ≤ now then
      ((400, errJson "Cannot book a class that has already started or ended"), db)
    else if c.available_slots ≤ 0 then
      ((409, errJson "No available slots for this class"), db)
    else
      ((201, jobj [("message", jstr "Booking successful"), ("booking_id", jstr gid),
                   ("class_name", jstr c.name), ("class_datetime_ist", jint c.datetime_ist),
                   ("available_slots", jint (c.available_slots - 1))]),
       { classes := decrementFirst cid db.classes,
         bookings := db.bookings ++
           [{ id := gid, class_id := cid, client_name := cname,
              client_email := cemail, booking_time := gt }] })

/-- `POST /book`.  `now` is `datetime.now(UTC)`, `gid` the generated uuid,
`gt` the booking timestamp, `data` the parsed JSON body (`none` when the
body is absent or null; an empty object is also falsy). -/
def book_class (now : Int) (gid : String) (gt : Int) (db : DB)
    (data : Option (List (String × PyVal))) : (Nat × Json) × DB :=
  match data with
  | none => ((400, errJson "No data provided"), db)
  | some d =>
    if d = [] then ((400, errJson "No data provided"), db)
    else
      if truthy (pyGet d "class_id") && truthy (pyGet d "client_name")
          && truthy (pyGet d "client_email") then
        match pyToInt (pyGet d "class_id") with
        | none => ((400, errJson "class_id must be an integer"), db)
        | some cid => book_core now gid gt db cid (pyGet d "client_name") (pyGet d "client_email")
      else ((400, errJson "Missing required fields"), db)

/-- SQL `LIKE` with `%` and `_` wildcards, matching characters
case-insensitively (SQLAlchemy `ilike` lowers both sides; SQLite's LIKE is
ASCII-case-insensitive, as is `Char.toLower` on ASCII).  Fuel-based so the
function reduces definitionally; `likeMatch` supplies sufficient fuel. -/
def likeAux : Nat → List Char → List Char → Bool
  | 0, _, _ => false
  | _ + 1, [], [] => true
  | _ + 1, [], _ :: _ => false
  | fuel + 1, p :: ps, s =>
    if p = '%' then
      match s with
      | [] => likeAux fuel ps []
      | c :: ss => likeAux fuel ps (c :: ss) || likeAux fuel (p :: ps) ss
    else
      match s with
      | [] => false
      | c :: ss =>
        if p = '_' then likeAux fuel ps ss
        else (p.toLower == c.toLower) && likeAux fuel ps ss

/-- `lower(column) LIKE lower(pattern)`. -/
def likeMatch (pattern s : String) : Bool :=
  likeAux (pattern.data.length + s.data.length + 1) pattern.data s.data

/-- `Booking.client_email.ilike(email)`: pattern match on a stored string;
a non-string column value matches nothing. -/
def ilikeMatch (pattern : String) : PyVal → Bool
  | pystr s => likeMatch pattern s
  | _ => false

/-- The bookings returned by `GET /bookings?email=...` before serialisation. -/
def matchingBookings (db : DB) (email : String) : List Booking :=
  db.bookings.filter (fun b => ilikeMatch email b.client_email)

/-- One booking row joined with its class, as serialised by `GET /bookings`. -/
def bookingJsonOf (b : Booking) (c : FitnessClass) : Json :=
  jobj [("booking_id", jstr b.id), ("class_id", jint b.class_id),
        ("class_name", jstr c.name), ("class_datetime_ist", jint c.datetime_ist),
        ("client_name", pyvalJson b.client_name), ("client_email", pyvalJson b.client_email),
        ("booking_time", jint b.booking_time)]

/-- The response-building loop of `GET /bookings`: `booking.fitness_class`
resolves the foreign key; a dangling reference raises (`None.name`) and the
whole request answers 500, modelled by `none`. -/
def renderBookings (db : DB) : List Booking → Option (List Json)
  | [] => some []
  | b :: bs =>
    match db.classes.find? (fun c => c.id == b.class_id) with
    | none => none
    | some c => (renderBookings db bs).map (fun rest => bookingJsonOf b c :: rest)

/-- `GET /bookings`.  `email` is `request.args.get('email')`: `none` when
the parameter is absent; an empty string is also falsy and rejected. -/
def get_bookings (db : DB) (email : Option String) : Nat × Json :=
  match email with
  | none => (400, errJson "Email query parameter is required")
  | some e =>
    if e = "" then (400, errJson "Email query parameter is required")
    else
      match renderBookings db (matchingBookings db e) with
      | none => (500, errJson "An error occurred while retrieving bookings")
      | some items => (200, jarr items)

/-- The committed operations of the service: administrative class creation
and the booking endpoint. -/
inductive Op where
  | addClass (class_id : Int) (name : String) (istWall : Int) (instructor : String)
      (total_slots : Int) (duration_minutes : Int) : Op
  | book (now : Int) (gid : String) (gt : Int) (data : Option (List (String × PyVal))) : Op

/-- State transition of one committed operation (responses discarded). -/
def step (db : DB) : Op → DB
  | Op.addClass cid name ist instructor slots dur =>
    (add_class db cid name ist instructor slots dur).2
  | Op.book now gid gt data => (book_class now gid gt db data).2

/-- The database reached by a sequence of operations from the empty store. -/
def run (ops : List Op) : DB := ops.foldl step emptyDB

/-- Number of committed bookings referencing a class id. -/
def countBookings (bs : List Booking) (cid : Int) : Nat :=
  (bs.filter (fun b => b.class_id == cid)).length

/-- The §8 slot accounting for one class row. -/
def classOK (bs : List Booking) (c : FitnessClass) : Prop :=
  0 ≤ c.available_slots ∧ c.available_slots ≤ c.total_slots ∧
    c.available_slots = c.total_slots - (countBookings bs c.id : Int)

instance (bs : List Booking) (c : FitnessClass) : Decidable (classOK bs c) := by
  unfold classOK; infer_instance

/-- The §8 invariant over the whole store. -/
def slotInvariant (db : DB) : Prop := ∀ c ∈ db.classes, classOK db.bookings c

instance (db : DB) : Decidable (slotInvariant db) := by
  unfold slotInvariant; infer_instance

/-- Case-insensitive equality of email strings, in the spec's words
("matches the given email case-insensitively"). -/
def ciEq (a b : String) : Bool := a.data.map Char.toLower == b.data.map Char.toLower

/-- Creations in an operation sequence carry a nonnegative capacity. -/
def creationNonneg : Op → Prop
  | Op.addClass _ _ _ _ slots _ => 0 ≤ slots
  | Op.book _ _ _ _ => True

instance (op : Op) : Decidable (creationNonneg op) := by
  cases op <;> (unfold creationNonneg; infer_instance)

/-- Whether a stored booking column equals an email case-insensitively
(the spec's pair identity for duplicate detection). -/
def emailIs (v : PyVal) (e : String) : Bool :=
  match v with
  | PyVal.pystr s => ciEq s e
  | _ => false

/-- Committed bookings for one `(class_id, client_email)` pair, the email
compared case-insensitively. -/
def countPairBookings (bs : List Booking) (cid : Int) (email : String) : Nat :=
  (bs.filter (fun b => b.class_id == cid && emailIs b.client_email email)).length

/-- Test fixture: an upcoming class with free capacity (id 1). -/
def class1fix : FitnessClass :=
  { id := 1, name := "Morning Yoga", datetime_ist := 2330, datetime_utc := 2000,
    instructor := "Priya Sharma", total_slots := 10, available_slots := 5,
    duration_minutes := 60 }

/-- Test fixture: an upcoming class with no free slot (id 2). -/
def class2fix : FitnessClass :=
  { id := 2, name := "Evening HIIT", datetime_ist := 2330, datetime_utc := 2000,
    instructor := "Rahul Verma", total_slots := 10, available_slots := 0,
    duration_minutes := 45 }

/-- Test fixture: a class that has already started (id 3, start 500 ≤ now = 1000). -/
def class3fix : FitnessClass :=
  { id := 3, name := "Past Yoga", datetime_ist := 830, datetime_utc := 500,
    instructor := "Priya Sharma", total_slots := 10, available_slots := 3,
    duration_minutes := 60 }

/-- Test fixture: an existing booking of class 1 by test@example.com. -/
def booking1fix : Booking :=
  { id := "test-booking-123", class_id := 1, client_name := PyVal.pystr "Test User",
    client_email := PyVal.pystr "test@example.com", booking_time := 900 }

/-- Test fixture: an existing booking of the full class 2 by test@example.com. -/
def booking2fix : Booking :=
  { id := "test-booking-456", class_id := 2, client_name := PyVal.pystr "Test User",
    client_email := PyVal.pystr "test@example.com", booking_time := 910 }

/-- Test fixture database, current instant 1000. -/
def dbFix : DB := ⟨[class1fix, class2fix, class3fix], [booking1fix, booking2fix]⟩

/-- A well-formed booking request body for class `cid`. -/
def reqBody (cid : Int) (cname cemail : String) : List (String × PyVal) :=
  [("class_id", PyVal.pyint cid), ("client_name", PyVal.pystr cname),
   ("client_email", PyVal.pystr cemail)]

/-- Claim C1: a booking request for a `(class_id, client_email)` pair that
already has a booking is supposed to fail with `DuplicateBooking` and
insert nothing; the code performs no duplicate query at all, answers 201
and inserts a second booking for the same pair. -/
theorem book_class_duplicate_accepted :
    (book_class 1000 "b-new" 1000 dbFix (some (reqBody 1 "Test User" "test@example.com"))).1.1
      = 201 ∧
    countPairBookings
      (book_class 1000 "b-new" 1000 dbFix
        (some (reqBody 1 "Test User" "test@example.com"))).2.bookings 1 "test@example.com"
      = 2 := by
  decide

/-- Claim C2: a syntactically invalid `client_email` is supposed to be
rejected with HTTP 400 before any transaction; the code never validates
the email and commits the booking with status 201. -/
theorem book_class_invalid_email_accepted :
    (book_class 1000 "b-new" 1000 dbFix (some (reqBody 1 "Test User" "invalid-email"))).1.1
      = 201 ∧
    (book_class 1000 "b-new" 1000 dbFix
        (some (reqBody 1 "Test User" "invalid-email"))).2.bookings.length
      = dbFix.bookings.length + 1 := by
  decide

/-- Claim C3: `include_past=true` is supposed to additionally return past
classes; the handler ignores the query parameter and still filters the
started class 3 out (and the query has no ORDER BY at all). -/
theorem get_classes_ignores_include_past :
    (get_classes 1000 dbFix (some "true")).2 = jarr [classJson class1fix, classJson class2fix] ∧
    class3fix ∈ dbFix.classes ∧ class3fix.datetime_utc ≤ 1000 := by
  exact ⟨rfl, by decide, by decide⟩

/-- Claim C4: every response is supposed to carry a `status` field and
errors a `message` field; `GET /classes` answers a bare JSON array and the
error bodies carry only an `error` key. -/
theorem responses_lack_status_field :
    hasField (get_classes 1000 dbFix none).2 "status" = false ∧
    (book_class 1000 "b-new" 1000 dbFix none).1.2 = errJson "No data provided" ∧
    hasField (errJson "No data provided") "status" = false ∧
    hasField (errJson "No data provided") "message" = false := by
  exact ⟨by decide, rfl, by decide, by decide⟩

/-- Claim C5: booking a class whose start instant is at or before now is
supposed to answer HTTP 409; the code answers HTTP 400 (and leaves the
store unchanged). -/
theorem book_class_started_returns_400 :
    (book_class 1000 "b-new" 1000 dbFix (some (reqBody 3 "New User" "new.user@example.com"))).1.1
      = 400 ∧
    (book_class 1000 "b-new" 1000 dbFix
        (some (reqBody 3 "New User" "new.user@example.com"))).1.2
      = errJson "Cannot book a class that has already started or ended" ∧
    (book_class 1000 "b-new" 1000 dbFix
        (some (reqBody 3 "New User" "new.user@example.com"))).2 = dbFix := by
  exact ⟨by decide, rfl, by decide⟩

/-- Claim C8: on a request that is both a duplicate booking and out of
capacity, `DuplicateBooking` is supposed to take precedence over
`NoAvailableSlots`; the code has no duplicate check and reports the
capacity conflict. -/
theorem book_class_duplicate_loses_to_capacity :
    countPairBookings dbFix.bookings 2 "test@example.com" = 1 ∧
    (book_class 1000 "b-new" 1000 dbFix (some (reqBody 2 "Test User" "test@example.com"))).1.1
      = 409 ∧
    (book_class 1000 "b-new" 1000 dbFix
        (some (reqBody 2 "Test User" "test@example.com"))).1.2
      = errJson "No available slots for this class" := by
  exact ⟨by decide, by decide, rfl⟩

theorem decrementFirst_map_id (cid : Int) (l : List FitnessClass) :
    (decrementFirst cid l).map FitnessClass.id = l.map FitnessClass.id := by
  induction l with
  | nil => rfl
  | cons c cs ih =>
    by_cases h : c.id = cid
    · simp [decrementFirst, h]
    · simp [decrementFirst, h, ih]

theorem decrementFirst_length (cid : Int) (l : List FitnessClass) :
    (decrementFirst cid l).length = l.length := by
  have := congrArg List.length (decrementFirst_map_id cid l)
  simpa using this

theorem decrementFirst_forall2 (cid : Int) (l : List FitnessClass) :
    List.Forall₂ (fun old new => new = old ∨
      (old.id = cid ∧ new = { old with available_slots := old.available_slots - 1 }))
      l (decrementFirst cid l) := by
  induction l with
  | nil => exact List.Forall₂.nil
  | cons c cs ih =>
    by_cases hb : (c.id == cid) = true
    · simp only [decrementFirst, if_pos hb]
      refine List.Forall₂.cons (Or.inr ⟨by simpa using hb, rfl⟩) ?_
      exact List.forall₂_same.2 (fun x _ => Or.inl rfl)
    · simp only [decrementFirst, if_neg hb]
      exact List.Forall₂.cons (Or.inl rfl) ih

theorem decrementFirst_mem {l : List FitnessClass} {cid : Int} {c0 : FitnessClass}
    (hnd : (l.map FitnessClass.id).Nodup)
    (hf : l.find? (fun c => c.id == cid) = some c0) :
    ∀ c' ∈ decrementFirst cid l,
      (c' ∈ l ∧ c'.id ≠ cid) ∨
        c' = { c0 with available_slots := c0.available_slots - 1 } := by
  induction l with
  | nil => simp at hf
  | cons c cs ih =>
    simp only [List.map_cons, List.nodup_cons] at hnd
    by_cases hb : (c.id == cid) = true
    · simp only [List.find?_cons, hb] at hf
      have hcc0 : c = c0 := by simpa using hf
      intro c' hc'
      simp only [decrementFirst, if_pos hb, List.mem_cons] at hc'
      rcases hc' with rfl | hc'
      · exact Or.inr (by rw [hcc0])
      · refine Or.inl ⟨List.mem_cons_of_mem _ hc', ?_⟩
        intro hid
        have hmem : c'.id ∈ cs.map FitnessClass.id := List.mem_map_of_mem _ hc'
        have hcid : c.id = cid := by simpa using hb
        rw [hid, ← hcid] at hmem
        exact hnd.1 hmem
    · have hb' : (c.id == cid) = false := by simpa using hb
      simp only [List.find?_cons, hb'] at hf
      intro c' hc'
      simp only [decrementFirst, if_neg hb, List.mem_cons] at hc'
      rcases hc' with rfl | hc'
      · exact Or.inl ⟨List.mem_cons_self _ _, by simpa using hb⟩
      · rcases ih hnd.2 hf c' hc' with ⟨hmem, hid⟩ | heq
        · exact Or.inl ⟨List.mem_cons_of_mem _ hmem, hid⟩
        · exact Or.inr heq

theorem countBookings_append (bs : List Booking) (b : Booking) (cid : Int) :
    countBookings (bs ++ [b]) cid =
      countBookings bs cid + (if b.class_id = cid then 1 else 0) := by
  by_cases h : b.class_id = cid <;>
    simp [countBookings, List.filter_append, h]

/-- Case analysis of the booking transaction after validation: either an
error with the store untouched, or status 201 with the booking inserted
and the fetched class's counter decremented, committed together. -/
theorem book_core_spec (now : Int) (gid : String) (gt : Int) (db : DB) (cid : Int)
    (cname cemail : PyVal) :
    ((book_core now gid gt db cid cname cemail).1.1 ≠ 201 ∧
        (book_core now gid gt db cid cname cemail).2 = db) ∨
      ((book_core now gid gt db cid cname cemail).1.1 = 201 ∧
        ∃ c, db.classes.find? (fun x => x.id == cid) = some c ∧ c.id = cid ∧
          now < c.datetime_utc ∧ 0 < c.available_slots ∧
          (book_core now gid gt db cid cname cemail).2 =
            { classes := decrementFirst cid db.classes,
              bookings := db.bookings ++
                [{ id := gid, class_id := cid, client_name := cname,
                   client_email := cemail, booking_time := gt }] }) := by
  unfold book_core
  cases hf : db.classes.find? (fun x => x.id == cid) with
  | none => exact Or.inl ⟨by simp, rfl⟩
  | some c =>
    by_cases h1 : c.datetime_utc ≤ now
    · exact Or.inl ⟨by simp [h1], by simp [h1]⟩
    · by_cases h2 : c.available_slots ≤ 0
      · exact Or.inl ⟨by simp [h1, h2], by simp [h1, h2]⟩
      · refine Or.inr ⟨by simp [h1, h2], c, rfl, ?_, by omega, by omega, by simp [h1, h2]⟩
        have := List.find?_some hf
        simpa using this

/-- Case analysis of the whole `POST /book` handler. -/
theorem book_class_spec (now : Int) (gid : String) (gt : Int) (db : DB)
    (data : Option (List (String × PyVal))) :
    ((book_class now gid gt db data).1.1 ≠ 201 ∧ (book_class now gid gt db data).2 = db) ∨
      ((book_class now gid gt db data).1.1 = 201 ∧
        ∃ cid cname cemail c,
          db.classes.find? (fun x => x.id == cid) = some c ∧ c.id = cid ∧
          now < c.datetime_utc ∧ 0 < c.available_slots ∧
          (book_class now gid gt db data).2 =
            { classes := decrementFirst cid db.classes,
              bookings := db.bookings ++
                [{ id := gid, class_id := cid, client_name := cname,
                   client_email := cemail, booking_time := gt }] }) := by
  cases data with
  | none => exact Or.inl ⟨by simp [book_class], by simp [book_class]⟩
  | some d =>
    by_cases hd : d = []
    · exact Or.inl ⟨by simp [book_class, hd], by simp [book_class, hd]⟩
    · by_cases hv : (truthy (pyGet d "class_id") && truthy (pyGet d "client_name")
          && truthy (pyGet d "client_email")) = true
      · cases hi : pyToInt (pyGet d "class_id") with
        | none =>
          exact Or.inl ⟨by simp [book_class, hd, hv, hi], by simp [book_class, hd, hv, hi]⟩
        | some cid =>
          have hb : book_class now gid gt db (some d) =
              book_core now gid gt db cid (pyGet d "client_name") (pyGet d "client_email") := by
            simp [book_class, hd, hv, hi]
          rw [hb]
          rcases book_core_spec now gid gt db cid (pyGet d "client_name")
              (pyGet d "client_email") with ⟨h1, h2⟩ | ⟨h1, c, hf, hcid, ht, ha, hdb⟩
          · exact Or.inl ⟨h1, h2⟩
          · exact Or.inr ⟨h1, cid, _, _, c, hf, hcid, ht, ha, hdb⟩
      · have hv' : (truthy (pyGet d "class_id") && truthy (pyGet d "client_name")
            && truthy (pyGet d "client_email")) = false := by
          simpa using hv
        exact Or.inl ⟨by simp [book_class, hd, hv'], by simp [book_class, hd, hv']⟩

/-- Claim C7: the booking insert and the availability decrement commit as
one atomic unit — every failing request leaves the store exactly as it
was (the rollback), and a 201 response comes with both the one inserted
booking row and the matching decrement, never one without the other. -/
theorem book_class_atomic (now : Int) (gid : String) (gt : Int) (db : DB)
    (data : Option (List (String × PyVal))) :
    ((book_class now gid gt db data).1.1 ≠ 201 ∧ (book_class now gid gt db data).2 = db) ∨
      ((book_class now gid gt db data).1.1 = 201 ∧
        ∃ cid cname cemail c,
          db.classes.find? (fun x => x.id == cid) = some c ∧ c.id = cid ∧
          now < c.datetime_utc ∧ 0 < c.available_slots ∧
          (book_class now gid gt db data).2 =
            { classes := decrementFirst cid db.classes,
              bookings := db.bookings ++
                [{ id := gid, class_id := cid, client_name := cname,
                   client_email := cemail, booking_time := gt }] }) :=
  book_class_spec now gid gt db data

/-- The frame of a successful booking: one appended booking row, one
class counter decremented by exactly one, everything else untouched. -/
def bookSuccessFrame (gid : String) (gt : Int) (db db' : DB) : Prop :=
  ∃ cid cname cemail c,
    db.classes.find? (fun x => x.id == cid) = some c ∧ c.id = cid ∧
    0 < c.available_slots ∧
    db'.bookings = db.bookings ++
      [{ id := gid, class_id := cid, client_name := cname,
         client_email := cemail, booking_time := gt }] ∧
    db'.classes.length = db.classes.length ∧
    List.Forall₂ (fun old new => new = old ∨
      (old.id = cid ∧ new = { old with available_slots := old.available_slots - 1 }))
      db.classes db'.classes ∧
    db'.classes = decrementFirst cid db.classes

/-- Claim C10: a successful `book_class` changes nothing but the target
class's `available_slots` (down by exactly 1, via `decrementFirst` on the
fetched row) and appends exactly one booking row for that class; every
other class row, every other field of the target row, and every
pre-existing booking row are unchanged. -/
theorem book_class_frame (now : Int) (gid : String) (gt : Int) (db : DB)
    (data : Option (List (String × PyVal)))
    (h : (book_class now gid gt db data).1.1 = 201) :
    bookSuccessFrame gid gt db (book_class now gid gt db data).2 := by
  rcases book_class_spec now gid gt db data with ⟨h1, _⟩ |
    ⟨_, cid, cname, cemail, c, hf, hcid, _, ha, hdb⟩
  · exact absurd h h1
  · refine ⟨cid, cname, cemail, c, hf, hcid, ha, ?_, ?_, ?_, ?_⟩
    · rw [hdb]
    · rw [hdb]; exact decrementFirst_length cid db.classes
    · rw [hdb]; exact decrementFirst_forall2 cid db.classes
    · rw [hdb]

/-- Witness for `book_class_frame`: a concrete successful booking. -/
theorem book_class_frame_witness :
    (book_class 1000 "b-new" 1000 dbFix
        (some (reqBody 1 "New User" "new.user@example.com"))).1.1 = 201 ∧
      bookSuccessFrame "b-new" 1000 dbFix
        (book_class 1000 "b-new" 1000 dbFix
          (some (reqBody 1 "New User" "new.user@example.com"))).2 :=
  ⟨by decide,
   book_class_frame 1000 "b-new" 1000 dbFix
     (some (reqBody 1 "New User" "new.user@example.com")) (by decide)⟩

/-- Class primary keys are unique. -/
def classIdsNodup (db : DB) : Prop := (db.classes.map FitnessClass.id).Nodup

/-- Every booking row references an existing class row. -/
def noOrphans (db : DB) : Prop := ∀ b ∈ db.bookings, ∃ c ∈ db.classes, c.id = b.class_id

/-- The inductive invariant carried across committed operations. -/
def storeInv (db : DB) : Prop := classIdsNodup db ∧ noOrphans db ∧ slotInvariant db

theorem storeInv_empty : storeInv emptyDB := by
  refine ⟨by simp [classIdsNodup, emptyDB], ?_, ?_⟩
  · intro b hb; simp [emptyDB] at hb
  · intro c hc; simp [emptyDB] at hc

theorem add_class_inv (db : DB) (cid : Int) (name : String) (istWall : Int)
    (instructor : String) (slots : Int) (dur : Int)
    (hInv : storeInv db) (hslots : 0 ≤ slots) :
    storeInv (add_class db cid name istWall instructor slots dur).2 := by
  obtain ⟨hnd, horph, hslot⟩ := hInv
  unfold add_class
  cases hf : db.classes.find? (fun c => c.id == cid) with
  | some c => exact ⟨hnd, horph, hslot⟩
  | none =>
    have hnotin : cid ∉ db.classes.map FitnessClass.id := by
      intro hmem
      obtain ⟨c, hc, hcid⟩ := List.mem_map.1 hmem
      have := List.find?_eq_none.1 hf c hc
      simp [hcid] at this
    refine ⟨?_, ?_, ?_⟩
    · simp only [classIdsNodup, List.map_append, List.map_cons, List.map_nil]
      exact List.Nodup.append hnd (List.nodup_singleton cid)
        (by simpa [List.disjoint_singleton] using hnotin)
    · intro b hb
      obtain ⟨c, hc, hcid⟩ := horph b hb
      exact ⟨c, List.mem_append_left _ hc, hcid⟩
    · intro c hc
      rcases List.mem_append.1 hc with hc | hc
      · exact hslot c hc
      · have hcnew : c = { id := cid, name := name, datetime_ist := istWall,
                           datetime_utc := istWall - istOffset, instructor := instructor,
                           total_slots := slots, available_slots := slots,
                           duration_minutes := dur } := by simpa using hc
        subst hcnew
        have hcount : countBookings db.bookings cid = 0 := by
          simp only [countBookings, List.length_eq_zero]
          rw [List.filter_eq_nil]
          intro b hb
          obtain ⟨c', hc', hcid⟩ := horph b hb
          have hne := List.find?_eq_none.1 hf c' hc'
          simp only [beq_iff_eq] at hne ⊢
          intro hbc
          exact hne (hcid.trans hbc)
        refine ⟨hslots, le_refl _, ?_⟩
        simp [hcount]

theorem classOK_append_other {bs : List Booking} {b : Booking} {c : FitnessClass}
    (h : classOK bs c) (hne : b.class_id ≠ c.id) : classOK (bs ++ [b]) c := by
  obtain ⟨h0, hle, heqn⟩ := h
  have hcnt : countBookings (bs ++ [b]) c.id = countBookings bs c.id := by
    rw [countBookings_append, if_neg hne]; omega
  exact ⟨h0, hle, by rw [hcnt]; exact heqn⟩


theorem classOK_decrement {bs : List Booking} {b : Booking} {c : FitnessClass}
    (h : classOK bs c) (ha : 0 < c.available_slots) (hb : b.class_id = c.id) :
    classOK (bs ++ [b]) { c with available_slots := c.available_slots - 1 } := by
  obtain ⟨h0, hle, heqn⟩ := h
  have hcnt : countBookings (bs ++ [b]) c.id = countBookings bs c.id + 1 := by
    rw [countBookings_append, if_pos hb]
  refine ⟨?_, ?_, ?_⟩
  · show (0 : Int) ≤ c.available_slots - 1
    omega
  · show c.available_slots - 1 ≤ c.total_slots
    omega
  · show c.available_slots - 1 = c.total_slots - (countBookings (bs ++ [b]) c.id : Int)
    rw [hcnt]
    push_cast
    omega

theorem book_class_inv (now : Int) (gid : String) (gt : Int) (db : DB)
    (data : Option (List (String × PyVal))) (hInv : storeInv db) :
    storeInv (book_class now gid gt db data).2 := by
  obtain ⟨hnd, horph, hslot⟩ := hInv
  rcases book_class_spec now gid gt db data with ⟨_, h2⟩ |
    ⟨_, cid, cname, cemail, c0, hf, hcid, _, ha, hdb⟩
  · rw [h2]; exact ⟨hnd, horph, hslot⟩
  · rw [hdb]
    have hids : (decrementFirst cid db.classes).map FitnessClass.id =
        db.classes.map FitnessClass.id := decrementFirst_map_id cid db.classes
    refine ⟨?_, ?_, ?_⟩
    · simpa [classIdsNodup, hids] using hnd
    · intro b hb
      rcases List.mem_append.1 hb with hb | hb
      · obtain ⟨c, hc, hc2⟩ := horph b hb
        have : c.id ∈ (decrementFirst cid db.classes).map FitnessClass.id := by
          rw [hids]; exact List.mem_map_of_mem _ hc
        obtain ⟨c', hc', hc'2⟩ := List.mem_map.1 this
        exact ⟨c', hc', by rw [hc'2, hc2]⟩
      · have hbeq : b = { id := gid, class_id := cid, client_name := cname,
                          client_email := cemail, booking_time := gt } := by simpa using hb
        subst hbeq
        have : cid ∈ (decrementFirst cid db.classes).map FitnessClass.id := by
          rw [hids, ← hcid]
          exact List.mem_map_of_mem _ (List.mem_of_find?_eq_some hf)
        obtain ⟨c', hc', hc'2⟩ := List.mem_map.1 this
        exact ⟨c', hc', hc'2⟩
    · intro c' hc'
      rcases decrementFirst_mem hnd hf c' hc' with ⟨hmem, hne⟩ | heq
      · exact classOK_append_other (hslot c' hmem) (fun h => hne h.symm)
      · subst heq
        exact classOK_decrement (hslot c0 (List.mem_of_find?_eq_some hf)) ha hcid.symm

theorem step_inv (db : DB) (op : Op) (hInv : storeInv db) (hop : creationNonneg op) :
    storeInv (step db op) := by
  cases op with
  | addClass cid name ist instructor slots dur =>
    exact add_class_inv db cid name ist instructor slots dur hInv hop
  | book now gid gt data => exact book_class_inv now gid gt db data hInv

theorem foldl_inv (ops : List Op) (db : DB) (hInv : storeInv db)
    (hops : ∀ op ∈ ops, creationNonneg op) : storeInv (ops.foldl step db) := by
  induction ops generalizing db with
  | nil => exact hInv
  | cons op ops ih =>
    exact ih (step db op) (step_inv db op hInv (hops op (List.mem_cons_self _ _)))
      (fun o ho => hops o (List.mem_cons_of_mem _ ho))

theorem run_inv (ops : List Op) (hops : ∀ op ∈ ops, creationNonneg op) :
    storeInv (run ops) :=
  foldl_inv ops emptyDB storeInv_empty hops

/-- Counterexample to claim C6 as stated: `add_class` accepts a negative
`total_slots`, and the committed creation then leaves a class with
`available_slots = -1 < 0`. -/
theorem slot_invariant_fails_for_negative_creation :
    ¬ slotInvariant (run [Op.addClass 7 "Ghost" 600 "Nobody" (-1) 60]) := by
  decide

/-- Claim C6 (amended): provided every committed class creation carries a
nonnegative `total_slots`, after every sequence of committed operations
every class satisfies `0 ≤ available_slots ≤ total_slots` and
`available_slots = total_slots - count(bookings for that class)`. -/
theorem slot_invariant_of_nonneg_creations (ops : List Op)
    (hops : ∀ op ∈ ops, creationNonneg op) : slotInvariant (run ops) :=
  (run_inv ops hops).2.2

/-- Witness for `slot_invariant_of_nonneg_creations`: one creation and one
successful booking. -/
theorem slot_invariant_of_nonneg_creations_witness :
    (∀ op ∈ [Op.addClass 1 "Yoga" 1430 "Priya Sharma" 15 60,
             Op.book 1000 "uuid-1" 1000 (some (reqBody 1 "New User" "new.user@example.com"))],
        creationNonneg op) ∧
      slotInvariant (run [Op.addClass 1 "Yoga" 1430 "Priya Sharma" 15 60,
        Op.book 1000 "uuid-1" 1000 (some (reqBody 1 "New User" "new.user@example.com"))]) :=
  ⟨by decide,
   slot_invariant_of_nonneg_creations
     [Op.addClass 1 "Yoga" 1430 "Priya Sharma" 15 60,
      Op.book 1000 "uuid-1" 1000 (some (reqBody 1 "New User" "new.user@example.com"))]
     (by decide)⟩

/-- The `booking_id` field of one serialised booking object. -/
def bookingIdOf : Json → Option String
  | jobj fields =>
    match fields.find? (fun kv => kv.1 == "booking_id") with
    | some (_, jstr s) => some s
    | _ => none
  | _ => none

/-- The booking ids carried by a `GET /bookings` success body. -/
def responseBookingIds : Json → List String
  | jarr xs => xs.filterMap bookingIdOf
  | _ => []

theorem bookingIdOf_bookingJsonOf (b : Booking) (c : FitnessClass) :
    bookingIdOf (bookingJsonOf b c) = some b.id := rfl

theorem renderBookings_ids (db : DB) (bs : List Booking)
    (h : ∀ b ∈ bs, (db.classes.find? (fun x => x.id == b.class_id)).isSome) :
    ∃ items, renderBookings db bs = some items ∧
      items.filterMap bookingIdOf = bs.map Booking.id := by
  induction bs with
  | nil => exact ⟨[], rfl, rfl⟩
  | cons b bs ih =>
    obtain ⟨c, hc⟩ := Option.isSome_iff_exists.1 (h b (List.mem_cons_self _ _))
    obtain ⟨items, hr, hids⟩ := ih (fun b' hb' => h b' (List.mem_cons_of_mem _ hb'))
    refine ⟨bookingJsonOf b c :: items, ?_, ?_⟩
    · simp only [renderBookings, hc, hr, Option.map_some']
    · simp only [List.filterMap_cons, bookingIdOf_bookingJsonOf, List.map_cons, hids]

/-- Claim C9 (amended): `GET /bookings` answers 400 when the email
parameter is absent or empty; otherwise (provided every matching booking's
class exists) it answers 200 with exactly the bookings whose stored
`client_email` matches the email interpreted as a case-insensitive SQL
LIKE pattern, in stored order, and an empty array (still 200, not an
error) when none match. -/
theorem get_bookings_amended (db : DB) (e : String) (he : e ≠ "")
    (h : ∀ b ∈ matchingBookings db e,
        (db.classes.find? (fun x => x.id == b.class_id)).isSome) :
    (get_bookings db none).1 = 400 ∧
    (get_bookings db (some "")).1 = 400 ∧
    (get_bookings db (some e)).1 = 200 ∧
    responseBookingIds (get_bookings db (some e)).2 =
      (matchingBookings db e).map Booking.id ∧
    (matchingBookings db e = [] → (get_bookings db (some e)).2 = jarr []) := by
  obtain ⟨items, hr, hids⟩ := renderBookings_ids db (matchingBookings db e) h
  refine ⟨rfl, rfl, ?_, ?_, ?_⟩
  · simp only [get_bookings, if_neg he, hr]
  · simp only [get_bookings, if_neg he, hr, responseBookingIds, hids]
  · intro hempty
    rw [hempty] at hr
    simp only [renderBookings] at hr
    simp only [get_bookings, if_neg he, hempty, renderBookings]

/-- Witness for `get_bookings_amended`: a differently-cased email hits
both stored bookings of dbFix. -/
theorem get_bookings_amended_witness :
    ("TEST@EXAMPLE.COM" ≠ "") ∧
    (∀ b ∈ matchingBookings dbFix "TEST@EXAMPLE.COM",
        (dbFix.classes.find? (fun x => x.id == b.class_id)).isSome) ∧
    responseBookingIds (get_bookings dbFix (some "TEST@EXAMPLE.COM")).2 =
      (matchingBookings dbFix "TEST@EXAMPLE.COM").map Booking.id :=
  ⟨by decide, by decide,
   (get_bookings_amended dbFix "TEST@EXAMPLE.COM" (by decide) (by decide)).2.2.2.1⟩

/-- Counterexample to claim C9 as stated: the match is a SQL LIKE pattern,
not case-insensitive string equality — querying `email="%"` returns every
booking, including ones whose `client_email` does not equal `"%"`
case-insensitively. -/
theorem get_bookings_wildcard_returns_nonmatching :
    (get_bookings dbFix (some "%")).1 = 200 ∧
    (get_bookings dbFix (some "%")).2 =
      jarr [bookingJsonOf booking1fix class1fix, bookingJsonOf booking2fix class2fix] ∧
    ciEq "%" "test@example.com" = false := by
  exact ⟨rfl, rfl, by decide⟩
